import Mathlib

/-!
Shallow embedding of the KubeVirt virt-launcher migration orchestration
(`pkg/virt-launcher/virtwrap`, the `LibvirtDomainManager` migration logic):
the migration metadata store (`initializeMigrationMetadata`,
`setMigrationResultHelper`, `setMigrationAbortStatus`), the coordinator
entry points (`MigrateVMI`, `CancelVMIMigration`), the disk classifier
(`classifyVolumesForMigration`, `getDiskTargetsForMigration`), the
progress monitor loop body (`liveMigrationMonitor`) and the migration
data-size computation (`getVMIMigrationDataSize`).

Go maps become association lists of names, libvirt calls become an explicit
`World` state, `metav1.Now()` becomes an explicit `now` parameter, and the
fallible libvirt operations return `Except`.  Machine integers are modelled
as `Int`/`Nat` (no value in this code approaches the int64 range).
-/

namespace Virtwrap

/-! ## Data model -/

/-- Migration record persisted in the domain metadata
(`api.MigrationMetadata`): uid, start and end timestamps, completion and
failure flags, failure reason and abort status. Timestamps are abstract
`Nat` instants. -/
structure MigrationMetadata where
  uid : String
  startTimestamp : Option Nat
  endTimestamp : Option Nat
  completed : Bool
  failed : Bool
  failureReason : String
  abortStatus : String
deriving Repr, DecidableEq

/-- The slice of the libvirt domain spec the migration logic touches:
`domainSpec.Metadata.KubeVirt.Migration`. -/
structure DomainSpec where
  migration : Option MigrationMetadata
deriving Repr, DecidableEq

/-- Per-workload migration state mirrored in the VMI status
(`vmi.Status.MigrationState`). -/
structure MigrationState where
  migrationUID : String
  startTimestamp : Option Nat
  completed : Bool
  failed : Bool
  targetPod : String
deriving Repr, DecidableEq

/-- Host-disk volume source: the `Shared` flag
(`volSrc.HostDisk.Shared`, dereferenced by the classifier). -/
structure HostDiskSource where
  shared : Bool
deriving Repr, DecidableEq

/-- Volume source of a VMI volume. A Boolean field models presence of the
corresponding pointer in the Go struct (`nil` versus non-`nil`). -/
structure VolumeSource where
  persistentVolumeClaim : Bool
  dataVolume : Bool
  hostDisk : Option HostDiskSource
  configMap : Bool
  secret : Bool
  serviceAccount : Bool
  cloudInitNoCloud : Bool
  cloudInitConfigDrive : Bool
  containerDisk : Bool
deriving Repr, DecidableEq

/-- A VMI volume: a name and its source. -/
structure Volume where
  name : String
  volumeSource : VolumeSource
deriving Repr, DecidableEq

/-- The memory-relevant part of `vmi.Spec.Domain`: the requested memory
(`Resources.Requests[memory]`, in bytes) and the explicitly set guest
memory (`Memory.Guest`, in bytes), each optional. -/
structure VMIDomain where
  requestsMemory : Option Nat
  guestMemory : Option Nat
deriving Repr, DecidableEq

/-- The slice of `vmi.Spec` the migration logic reads. -/
structure VMISpec where
  volumes : List Volume
  domain : VMIDomain
deriving Repr, DecidableEq

/-- The slice of `vmi.Status` the migration logic reads. -/
structure VMIStatus where
  migrationState : Option MigrationState
  migrationMethod : String
deriving Repr, DecidableEq

/-- A virtual machine instance (workload). -/
structure VMI where
  spec : VMISpec
  status : VMIStatus
deriving Repr, DecidableEq

/-- Constant `v1.BlockMigration`. -/
def BlockMigration : String := "BlockMigration"

/-- Constant `v1.MigrationAbortInProgress`. -/
def MigrationAbortInProgress : String := "Abort In Progress"

/-- Constant `v1.MigrationAbortSucceeded`. -/
def MigrationAbortSucceeded : String := "Abort Succeeded"

/-- Constant `v1.MigrationAbortFailed`. -/
def MigrationAbortFailed : String := "Abort Failed"

/-- The sentinel error `domainerrors.MigrationAbortInProgressError`,
compared by identity in the Go code; modelled as a distinguished string. -/
def migrationAbortInProgressError : String :=
  "MigrationAbortInProgressError: migration abort is in progress"

/-- The error `utilwait.PollImmediate` returns when its budget is
exhausted. -/
def errWaitTimeout : String := "timed out waiting for the condition"

/-- The migration UID the code reads from
`vmi.Status.MigrationState.MigrationUID`. The Go expression assumes the
state pointer is non-nil; callers reach it only under that guard. -/
def VMI.migrationUID (vmi : VMI) : String :=
  match vmi.status.migrationState with
  | some st => st.migrationUID
  | none => ""

/-! ## Disk classifier -/

/-- Result of `classifyVolumesForMigration`: the `shared` and `generated`
membership sets (Go maps keyed by volume name, modelled as name lists). -/
structure migrationDisks where
  shared : List String
  generated : List String
deriving Repr, DecidableEq

/-- Membership test `migrationDisks.isSharedVolume`. -/
def migrationDisks.isSharedVolume (d : migrationDisks) (name : String) : Bool :=
  d.shared.contains name

/-- Membership test `migrationDisks.isGeneratedVolume`. -/
def migrationDisks.isGeneratedVolume (d : migrationDisks) (name : String) : Bool :=
  d.generated.contains name

/-- One iteration of the volume loop of `classifyVolumesForMigration`. -/
def classifyVolume (disks : migrationDisks) (volume : Volume) : migrationDisks :=
  let volSrc := volume.volumeSource
  let disks :=
    if volSrc.persistentVolumeClaim || volSrc.dataVolume ||
        (match volSrc.hostDisk with
         | some hd => hd.shared
         | none => false) then
      { disks with shared := disks.shared ++ [volume.name] }
    else disks
  if volSrc.configMap || volSrc.secret || volSrc.serviceAccount ||
      volSrc.cloudInitNoCloud || volSrc.cloudInitConfigDrive ||
      volSrc.containerDisk then
    { disks with generated := disks.generated ++ [volume.name] }
  else disks

/-- `classifyVolumesForMigration`: builds the shared and generated volume
sets from the VMI's volume list. -/
def classifyVolumesForMigration (vmi : VMI) : migrationDisks :=
  vmi.spec.volumes.foldl classifyVolume ⟨[], []⟩

/-- A hypervisor-visible disk (`api.Disk`): type, read-only flag (presence
of the `ReadOnly` pointer), alias name and target device. -/
structure Disk where
  diskType : String
  readOnly : Bool
  aliasName : String
  targetDevice : String
deriving Repr, DecidableEq

/-- One iteration of the disk loop of `getDiskTargetsForMigration`. -/
def copyDiskStep (migrationVols : migrationDisks) (copyDisks : List String)
    (disk : Disk) : List String :=
  if disk.readOnly && !(migrationVols.isGeneratedVolume disk.aliasName) then
    copyDisks
  else if (disk.diskType != "file" && disk.diskType != "block") ||
      migrationVols.isSharedVolume disk.aliasName then
    copyDisks
  else
    copyDisks ++ [disk.targetDevice]

/-- `getDiskTargetsForMigration`: collects, in source order, the target
device names of the disks that must be copied during live migration. The
domain's disk list (read from the domain XML in the Go code) is passed
explicitly. -/
def getDiskTargetsForMigration (vmi : VMI) (disks : List Disk) : List String :=
  let migrationVols := classifyVolumesForMigration vmi
  disks.foldl (copyDiskStep migrationVols) []

/-! ## Migration metadata store

The libvirt connection is modelled as an explicit `World` state. A lookup
of the workload's domain yields either its spec, a NotFound error, or some
other error; the flags model transient failures of the spec read and of
the spec write. Each operation returns its `Except` outcome together with
the world after the call, so error paths demonstrably leave the persisted
record untouched. -/

/-- Outcome of `virConn.LookupDomainByName` for the workload's domain. -/
inductive LookupResult where
  | found (spec : DomainSpec)
  | notFound
  | otherError (msg : String)
deriving Repr, DecidableEq

/-- The libvirt-side state the migration logic interacts with. -/
structure World where
  lookup : LookupResult
  getSpecFails : Bool
  setSpecFails : Bool
  hostsUpdateFails : Bool
deriving Repr, DecidableEq

/-- The write of a fresh migration record performed by the tail of
`initializeMigrationMetadata`: a record with the request's UID and
`StartTimestamp = now`, stored through `setDomainSpecWithHooks`. -/
def initializeMigrationWrite (vmi : VMI) (now : Nat) (w : World)
    (spec : DomainSpec) : Except String Bool × World :=
  let newMeta : MigrationMetadata :=
    { uid := vmi.migrationUID, startTimestamp := some now,
      endTimestamp := none, completed := false, failed := false,
      failureReason := "", abortStatus := "" }
  if w.setSpecFails then
    (Except.error "failed to set domain spec", w)
  else
    (Except.ok false, { w with lookup := .found { spec with migration := some newMeta } })

/-- `initializeMigrationMetadata`: under the domain-modify lock, looks up
the domain and its spec; if a record with the request's UID exists and is
unfinished, reports `true` (already in progress) without mutation; if such
a record is finished, fails with the one-shot duplicate error; otherwise
writes a fresh record. Returns the flag-or-error and the world after the
call. -/
def initializeMigrationMetadata (vmi : VMI) (now : Nat) (w : World) :
    Except String Bool × World :=
  match w.lookup with
  | .notFound => (Except.error "domain not found", w)
  | .otherError e => (Except.error e, w)
  | .found spec =>
    if w.getSpecFails then (Except.error "failed to get domain spec", w)
    else
      match spec.migration with
      | some migrationMetadata =>
        if migrationMetadata.uid = vmi.migrationUID then
          if migrationMetadata.endTimestamp = none then
            (Except.ok true, w)
          else
            (Except.error "migration job already executed", w)
        else initializeMigrationWrite vmi now w spec
      | none => initializeMigrationWrite vmi now w spec

/-- `setMigrationResultHelper`: under the domain-modify lock, re-reads the
domain spec; succeeds as a no-op on a NotFound lookup or when no migration
record exists; fails with the abort-in-progress sentinel when the stored
abort status and the requested one are both `MigrationAbortInProgress`;
otherwise updates abort status, failure and completion fields and persists
the spec. -/
def setMigrationResultHelper (vmi : VMI) (failed : Bool) (completed : Bool)
    (reason : String) (abortStatus : String) (now : Nat) (w : World) :
    Except String Unit × World :=
  match w.lookup with
  | .notFound => (Except.ok (), w)
  | .otherError e => (Except.error e, w)
  | .found spec =>
    if w.getSpecFails then (Except.error "failed to get domain spec", w)
    else
      match spec.migration with
      | none => (Except.ok (), w)
      | some m =>
        if abortStatus ≠ "" ∧ m.abortStatus = abortStatus ∧
            m.abortStatus = MigrationAbortInProgress then
          (Except.error migrationAbortInProgressError, w)
        else
          let m1 := if abortStatus ≠ "" then { m with abortStatus := abortStatus } else m
          let m2 := if failed then { m1 with failed := true, failureReason := reason } else m1
          let m3 := if completed then { m2 with completed := true, endTimestamp := some now } else m2
          if w.setSpecFails then (Except.error "failed to set domain spec", w)
          else (Except.ok (), { w with lookup := .found { spec with migration := some m3 } })

/-- `setMigrationAbortStatus`: retries `setMigrationResultHelper` with
`failed = false, completed = false` under `utilwait.PollImmediate`
(interval 10s, budget 60s), stopping immediately on the abort-in-progress
sentinel. The helper is deterministic in the world, so every retry repeats
the first outcome and an error other than the sentinel exhausts the budget
and surfaces as the poll timeout error. -/
def setMigrationAbortStatus (vmi : VMI) (abortStatus : String) (now : Nat)
    (w : World) : Except String Unit × World :=
  match setMigrationResultHelper vmi false false "" abortStatus now w with
  | (Except.ok _, w') => (Except.ok (), w')
  | (Except.error e, w') =>
    if e = migrationAbortInProgressError then (Except.error e, w')
    else (Except.error errWaitTimeout, w')

/-- `setMigrationResult`: retries `setMigrationResultHelper` with
`completed = true` under the same poll loop; with a deterministic world a
first failure surfaces as the poll timeout error. -/
def setMigrationResult (vmi : VMI) (failed : Bool) (reason : String)
    (abortStatus : String) (now : Nat) (w : World) : Except String Unit × World :=
  match setMigrationResultHelper vmi failed true reason abortStatus now w with
  | (Except.ok _, w') => (Except.ok (), w')
  | (Except.error _, w') => (Except.error errWaitTimeout, w')

/-! ## Coordinator entry points -/

/-- Observable side effects of one `MigrateVMI` call: whether the
domain-modify lock was taken (`initializeMigrationMetadata` ran), whether
the hosts file was appended to, and whether the background migration task
(`asyncMigrate`) was started. -/
structure MigrateEffects where
  lockAcquired : Bool
  hostsFileWritten : Bool
  asyncMigrateStarted : Bool
deriving Repr, DecidableEq

/-- `MigrateVMI`: rejects a VMI with no migration state; otherwise runs the
idempotency check, returns as a successful no-op when a matching attempt
is already in progress, and otherwise appends the hosts-file entry and
fires the background migration task. -/
def MigrateVMI (vmi : VMI) (now : Nat) (w : World) :
    Except String Unit × World × MigrateEffects :=
  match vmi.status.migrationState with
  | none =>
    (Except.error "cannot migration VMI until migrationState is ready", w,
      ⟨false, false, false⟩)
  | some _ =>
    match initializeMigrationMetadata vmi now w with
    | (Except.error e, w') => (Except.error e, w', ⟨true, false, false⟩)
    | (Except.ok true, w') => (Except.ok (), w', ⟨true, false, false⟩)
    | (Except.ok false, w') =>
      if w'.hostsUpdateFails then
        (Except.error "failed to update the hosts file", w', ⟨true, false, false⟩)
      else
        (Except.ok (), w', ⟨true, true, true⟩)

/-- `CancelVMIMigration`: validates that a migration is actually in flight,
records `MigrationAbortInProgress`, treats the abort-in-progress sentinel
as success, and on a fresh success spawns the background abort task
(reported by the final Boolean). -/
def CancelVMIMigration (vmi : VMI) (now : Nat) (w : World) :
    Except String Unit × World × Bool :=
  match vmi.status.migrationState with
  | none =>
    (Except.error "failed to cancel migration - vmi is not migrating", w, false)
  | some st =>
    if st.completed ∨ st.failed ∨ st.startTimestamp = none then
      (Except.error "failed to cancel migration - vmi is not migrating", w, false)
    else
      match setMigrationAbortStatus vmi MigrationAbortInProgress now w with
      | (Except.error e, w') =>
        if e = migrationAbortInProgressError then (Except.ok (), w', false)
        else (Except.error e, w', false)
      | (Except.ok _, w') => (Except.ok (), w', true)

/-! ## Migration data size and completion budget -/

/-- `resource.Quantity.ScaledValue(resource.Giga)` for a nonnegative byte
count: the ceiling of division by 10^9 (decimal giga, rounding up). -/
def scaledValueGiga (bytes : Nat) : Nat :=
  (bytes + 999999999) / 1000000000

/-- `getVMIMigrationDataSize`: requested memory, overridden by explicitly
set guest memory, plus the ephemeral-disk total size (a filesystem scan in
the Go code, passed here as a parameter) when the migration method is
block migration, scaled with `ScaledValue(resource.Giga)`. -/
def getVMIMigrationDataSize (vmi : VMI) (ephemeralDisksTotalSize : Nat) : Int :=
  let memory := (vmi.spec.domain.requestsMemory).getD 0
  let memory :=
    match vmi.spec.domain.guestMemory with
    | some g => g
    | none => memory
  let memory :=
    if vmi.status.migrationMethod = BlockMigration then
      memory + ephemeralDisksTotalSize
    else memory
  Int.ofNat (scaledValueGiga memory)

/-- Options passed to `MigrateVMI` (`cmdclient.MigrationOptions`): the two
monitor timeouts, in seconds. -/
structure MigrationOptions where
  progressTimeout : Int
  completionTimeoutPerGiB : Int
deriving Repr, DecidableEq

/-- The completion budget computed at the top of `liveMigrationMonitor`:
`acceptableCompletionTime = completionTimeoutPerGiB * getVMIMigrationDataSize(vmi)`. -/
def liveMigrationMonitorAcceptableCompletionTime (options : MigrationOptions)
    (vmi : VMI) (ephemeralDisksTotalSize : Nat) : Int :=
  options.completionTimeoutPerGiB * getVMIMigrationDataSize vmi ephemeralDisksTotalSize

/-! ## Progress monitor -/

/-- The loop state of `liveMigrationMonitor`: the monitor start instant,
the instant of the last watermark improvement and the progress watermark
(initially 0, meaning unset). All times are Unix seconds. -/
structure MonitorState where
  start : Int
  lastProgressUpdate : Int
  progressWatermark : Int
deriving Repr, DecidableEq

/-- The monitor state at loop entry. -/
def initialMonitorState (start : Int) : MonitorState :=
  ⟨start, start, 0⟩

/-- Libvirt job states the monitor distinguishes
(`DOMAIN_JOB_UNBOUNDED`, `DOMAIN_JOB_NONE`, `DOMAIN_JOB_COMPLETED`,
`DOMAIN_JOB_FAILED`, `DOMAIN_JOB_CANCELLED`). -/
inductive JobType where
  | unbounded
  | noJob
  | completed
  | failed
  | cancelled
deriving Repr, DecidableEq

/-- The poll result of `dom.GetJobInfo()` the monitor reads. -/
structure JobInfo where
  jobType : JobType
  dataRemaining : Int
deriving Repr, DecidableEq

/-- Arguments of a `setMigrationResult` call made when the monitor
finalizes the attempt. -/
structure FinalizeCall where
  failed : Bool
  reason : String
  abortStatus : String
deriving Repr, DecidableEq

/-- Outcome of one monitor loop iteration: either keep polling with an
updated state, or leave the loop, with the finalize call made (none when
the poll itself failed and the loop just breaks) and whether
`dom.AbortJob()` was issued this iteration. -/
inductive MonitorAction where
  | cont (st : MonitorState)
  | halt (result : Option FinalizeCall) (abortIssued : Bool)
deriving Repr, DecidableEq

/-- The reason recorded for a stuck migration. -/
def stuckReason (progressDelay : Int) : String :=
  "Live migration stuck for " ++ toString progressDelay ++
    " sec and has been aborted"

/-- The reason recorded when the completion budget is exceeded. -/
def notCompletedReason (acceptableCompletionTime : Int) : String :=
  "Live migration is not completed after " ++ toString acceptableCompletionTime ++
    " sec and has been aborted"

/-- One iteration of the `liveMigrationMonitor` loop. `migrationErr` is the
nonblocking read of the job-start error channel (`none` when the channel
is empty; `some none` when a nil error was sent). `jobInfo` is the
`GetJobInfo` outcome, `now` the current Unix second. In the
`DOMAIN_JOB_FAILED` branch the Go code formats the `GetJobInfo` error,
which is necessarily nil on that path, so the recorded reason is the
literal rendering of a nil error. -/
def liveMigrationMonitorStep (progressTimeout : Int)
    (acceptableCompletionTime : Int) (st : MonitorState)
    (migrationErr : Option (Option String)) (jobInfo : Except String JobInfo)
    (now : Int) : MonitorAction :=
  match migrationErr with
  | some (some passedErr) =>
    MonitorAction.halt
      (some ⟨true, "Live migration failed " ++ passedErr, ""⟩) false
  | _ =>
    match jobInfo with
    | Except.error _ => MonitorAction.halt none false
    | Except.ok info =>
      let remainingData := info.dataRemaining
      match info.jobType with
      | JobType.unbounded =>
        let elapsed := now - st.start
        let progressWatermark :=
          if st.progressWatermark = 0 ∨ st.progressWatermark > remainingData then
            remainingData
          else st.progressWatermark
        let lastProgressUpdate :=
          if st.progressWatermark = 0 ∨ st.progressWatermark > remainingData then
            now
          else st.lastProgressUpdate
        let progressDelay := now - lastProgressUpdate
        if progressTimeout ≠ 0 ∧ progressDelay > progressTimeout then
          MonitorAction.halt
            (some ⟨true, stuckReason progressDelay, MigrationAbortSucceeded⟩) true
        else if acceptableCompletionTime ≠ 0 ∧ elapsed > acceptableCompletionTime then
          MonitorAction.halt
            (some ⟨true, notCompletedReason acceptableCompletionTime,
              MigrationAbortSucceeded⟩) true
        else
          MonitorAction.cont ⟨st.start, lastProgressUpdate, progressWatermark⟩
      | JobType.noJob => MonitorAction.cont st
      | JobType.completed =>
        MonitorAction.halt (some ⟨false, "", ""⟩) false
      | JobType.failed =>
        MonitorAction.halt (some ⟨true, "<nil>", ""⟩) false
      | JobType.cancelled =>
        MonitorAction.halt
          (some ⟨true, "Live migration aborted ", MigrationAbortSucceeded⟩) false

/-- Feeds one running-state observation (a pair of poll instant and
remaining data) to the monitor with both timeout checks disabled, keeping
the resulting loop state. -/
def monitorObserve (st : MonitorState) (p : Int × Int) : MonitorState :=
  match liveMigrationMonitorStep 0 0 st none (Except.ok ⟨JobType.unbounded, p.2⟩) p.1 with
  | MonitorAction.cont st' => st'
  | MonitorAction.halt _ _ => st

/-- The monitor state after a sequence of running-state observations. -/
def runMonitorObs (st : MonitorState) (obs : List (Int × Int)) : MonitorState :=
  obs.foldl monitorObserve st

/-! ## Specification-side definitions

Definitions below transcribe sentences of the specification (not the
code); the theorems compare them with the embedded code. -/

/-- Keep-predicate of the disk-classification sentence: a disk is skipped
if it is read-only and its alias is not a generated volume; skipped if its
type is neither file nor block or its alias is a shared volume; otherwise
it is kept. -/
def keepDiskForCopy (mv : migrationDisks) (d : Disk) : Bool :=
  !(d.readOnly && !(mv.isGeneratedVolume d.aliasName)) &&
    !((d.diskType != "file" && d.diskType != "block") ||
      mv.isSharedVolume d.aliasName)

/-- Copy-set membership as the amended claim C4 words it: not read-only
without being generated, file- or block-backed, and not shared. -/
def diskInCopySet (mv : migrationDisks) (d : Disk) : Bool :=
  (!d.readOnly || mv.isGeneratedVolume d.aliasName) &&
    ((d.diskType == "file" || d.diskType == "block") &&
      !(mv.isSharedVolume d.aliasName))

/-- Minimum remaining-data value over a list of (time, remainingData)
observations. -/
def minRemaining : List (Int × Int) → Int
  | [] => 0
  | p :: rest => rest.foldl (fun m q => min m q.2) p.2

/-- The instant of the last strict improvement over a list of
observations, starting from watermark `w` last improved at `t`. -/
def lastImprovedTime (w t : Int) : List (Int × Int) → Int
  | [] => t
  | p :: rest =>
    if p.2 < w then lastImprovedTime p.2 p.1 rest
    else lastImprovedTime w t rest

/-- The monitor's post-update last-progress instant for one running-state
poll: the poll instant when the watermark is unset or improves, the stored
instant otherwise. -/
def monitorLastProgressUpdate (st : MonitorState) (r now : Int) : Int :=
  if st.progressWatermark = 0 ∨ st.progressWatermark > r then now
  else st.lastProgressUpdate

/-- Migration data size in bytes as claim C9 describes it: requested
memory overridden by explicitly set guest memory, plus the ephemeral-disk
total when the migration method is block migration. -/
def migrationDataSizeBytes (vmi : VMI) (eph : Nat) : Nat :=
  (match vmi.spec.domain.guestMemory with
   | some g => g
   | none => (vmi.spec.domain.requestsMemory).getD 0) +
    (if vmi.status.migrationMethod = BlockMigration then eph else 0)

/-! ## Helper lemmas -/

/-- One disk-loop iteration appends the target exactly when the
specification's keep-predicate holds. -/
lemma copyDiskStep_keep (mv : migrationDisks) (acc : List String) (d : Disk) :
    copyDiskStep mv acc d =
      if keepDiskForCopy mv d then acc ++ [d.targetDevice] else acc := by
  unfold copyDiskStep keepDiskForCopy
  cases h1 : d.readOnly && !(mv.isGeneratedVolume d.aliasName) <;>
    cases h2 : (d.diskType != "file" && d.diskType != "block") ||
      mv.isSharedVolume d.aliasName <;>
    simp [h1, h2]

/-- The disk fold equals accumulator plus filtered-and-mapped targets. -/
lemma foldl_copyDiskStep (mv : migrationDisks) :
    ∀ (disks : List Disk) (acc : List String),
      disks.foldl (copyDiskStep mv) acc =
        acc ++ (disks.filter (keepDiskForCopy mv)).map Disk.targetDevice
  | [], acc => by simp
  | d :: ds, acc => by
    rw [List.foldl_cons, copyDiskStep_keep]
    cases h : keepDiskForCopy mv d <;>
      simp [h, foldl_copyDiskStep mv ds]

/-- The disk classifier as a filter-and-map over the domain's disks. -/
lemma getDiskTargetsForMigration_eq_filter (vmi : VMI) (disks : List Disk) :
    getDiskTargetsForMigration vmi disks =
      (disks.filter (keepDiskForCopy (classifyVolumesForMigration vmi))).map
        Disk.targetDevice := by
  unfold getDiskTargetsForMigration
  rw [foldl_copyDiskStep]
  simp

/-- Boolean equivalence of the two keep-predicates. -/
lemma keepDiskForCopy_eq_diskInCopySet (mv : migrationDisks) (d : Disk) :
    keepDiskForCopy mv d = diskInCopySet mv d := by
  unfold keepDiskForCopy diskInCopySet
  cases hr : d.readOnly <;> cases hg : mv.isGeneratedVolume d.aliasName <;>
    cases hs : mv.isSharedVolume d.aliasName <;>
    cases hf : d.diskType == "file" <;> cases hb : d.diskType == "block" <;>
    simp [hr, hg, hs, hf, hb, bne]

/-- A running-state observation with a positive watermark: the watermark
becomes the minimum of itself and the observation, and the last-progress
instant advances exactly on a strict improvement. -/
lemma monitorObserve_pos (s t w : Int) (p : Int × Int) (hw : 0 < w) :
    monitorObserve ⟨s, t, w⟩ p =
      ⟨s, if p.2 < w then p.1 else t, min w p.2⟩ := by
  have hw0 : ¬ ((w : Int) = 0) := hw.ne'
  unfold monitorObserve liveMigrationMonitorStep
  simp only [hw0, false_or, gt_iff_lt, ne_eq, not_true_eq_false, false_and,
    if_false]
  by_cases h : p.2 < w
  · simp [h, min_eq_right h.le]
  · simp [h, min_eq_left (not_lt.mp h)]

/-- A running-state observation on an unset (zero) watermark adopts the
observed value and instant. -/
lemma monitorObserve_zero (s t : Int) (p : Int × Int) :
    monitorObserve ⟨s, t, 0⟩ p = ⟨s, p.1, p.2⟩ := by
  unfold monitorObserve liveMigrationMonitorStep
  simp

/-- Watermark evolution over a trace of positive observations starting
from a positive watermark: the watermark is the minimum seen so far and
the last-progress instant is the instant of the last strict
improvement. -/
lemma runMonitorObs_pos :
    ∀ (obs : List (Int × Int)) (s t w : Int), 0 < w →
      (∀ q ∈ obs, 0 < q.2) →
      runMonitorObs ⟨s, t, w⟩ obs =
        ⟨s, lastImprovedTime w t obs, obs.foldl (fun m q => min m q.2) w⟩
  | [], s, t, w, _, _ => by
    simp [runMonitorObs, lastImprovedTime]
  | p :: rest, s, t, w, hw, hpos => by
    have hp : 0 < p.2 := hpos p (List.mem_cons_self _ _)
    have hrest : ∀ q ∈ rest, 0 < q.2 := fun q hq =>
      hpos q (List.mem_cons_of_mem _ hq)
    have hstep : runMonitorObs ⟨s, t, w⟩ (p :: rest) =
        runMonitorObs (monitorObserve ⟨s, t, w⟩ p) rest := by
      simp [runMonitorObs]
    rw [hstep, monitorObserve_pos s t w p hw]
    by_cases h : p.2 < w
    · rw [if_pos h, min_eq_right h.le,
        runMonitorObs_pos rest s p.1 p.2 hp hrest]
      simp [lastImprovedTime, h, min_eq_right h.le]
    · rw [if_neg h, min_eq_left (not_lt.mp h),
        runMonitorObs_pos rest s t w hw hrest]
      simp [lastImprovedTime, h, min_eq_left (not_lt.mp h)]

/-! ## Example data -/

/-- A volume source with every pointer nil. -/
def noSource : VolumeSource :=
  ⟨false, false, none, false, false, false, false, false, false⟩

/-- Network-backed persistent-volume-claim volume of the worked example. -/
def pvcAVolume : Volume :=
  ⟨"pvcA", { noSource with persistentVolumeClaim := true }⟩

/-- Config-map-generated volume of the worked example. -/
def cmBVolume : Volume :=
  ⟨"cmB", { noSource with configMap := true }⟩

/-- Default (local) volume of the worked example. -/
def localCVolume : Volume :=
  ⟨"localC", noSource⟩

/-- VMI of the worked disk-classification example. -/
def exampleVMI : VMI :=
  ⟨⟨[pvcAVolume, cmBVolume, localCVolume], ⟨none, none⟩⟩, ⟨none, ""⟩⟩

/-- Matching hypervisor disks of the worked example. -/
def exampleDisks : List Disk :=
  [⟨"file", false, "pvcA", "target-pvcA"⟩,
   ⟨"file", true, "cmB", "target-cmB"⟩,
   ⟨"file", false, "localC", "target-localC"⟩]

/-! ## Claim theorems -/

/-- Claim C3: the disk classifier returns exactly the target device names
of the disks surviving the skip filters, in source order (a disk is
skipped if read-only and not generated, or if its type is neither file nor
block, or if its alias is shared); on the worked example with volumes
pvcA (network-backed PVC), cmB (config-map generated) and localC (default)
the copy set is the targets of cmB and localC and excludes pvcA. -/
theorem c3_disk_classification :
    (∀ (vmi : VMI) (disks : List Disk),
      getDiskTargetsForMigration vmi disks =
        (disks.filter (keepDiskForCopy (classifyVolumesForMigration vmi))).map
          Disk.targetDevice) ∧
    getDiskTargetsForMigration exampleVMI exampleDisks =
      ["target-cmB", "target-localC"] ∧
    "target-pvcA" ∉ getDiskTargetsForMigration exampleVMI exampleDisks := by
  refine ⟨getDiskTargetsForMigration_eq_filter, ?_, ?_⟩ <;> decide

/-- Claim C4 counterexample: a read-only, config-map-generated, file-backed
and non-shared disk is INCLUDED in the copy set, while the claim states
that read-only generated volumes are excluded from it. -/
theorem c4_counterexample :
    "target-cmB" ∈
      getDiskTargetsForMigration
        ⟨⟨[cmBVolume], ⟨none, none⟩⟩, ⟨none, ""⟩⟩
        [⟨"file", true, "cmB", "target-cmB"⟩] := by
  decide

/-- Claim C4 as amended: volumes that are read-only and NOT generated are
excluded from the copy set; besides them only shared volumes and
non-file/non-block disks are excluded, and every other file- or
block-backed disk — read-only generated ones included — is in the copy
set. -/
theorem c4_copy_set_amended :
    ∀ (vmi : VMI) (disks : List Disk),
      getDiskTargetsForMigration vmi disks =
        (disks.filter (diskInCopySet (classifyVolumesForMigration vmi))).map
          Disk.targetDevice := by
  intro vmi disks
  rw [getDiskTargetsForMigration_eq_filter]
  congr 1
  exact List.filter_congr fun d _ =>
    keepDiskForCopy_eq_diskInCopySet (classifyVolumesForMigration vmi) d

/-- Claim C10: a VMI whose status carries no migration state is rejected
by MigrateVMI immediately: the named error is returned, the world is
untouched, the domain-modify lock is never taken, no record is written, no
hosts-file entry is appended, and no background task starts. -/
theorem c10_requires_migration_state (vmi : VMI) (now : Nat) (w : World)
    (h : vmi.status.migrationState = none) :
    MigrateVMI vmi now w =
      (Except.error "cannot migration VMI until migrationState is ready", w,
        ⟨false, false, false⟩) := by
  unfold MigrateVMI
  rw [h]

/-- Witness for claim C10 at a concrete VMI and world. -/
theorem c10_requires_migration_state_witness :
    MigrateVMI ⟨⟨[], ⟨none, none⟩⟩, ⟨none, ""⟩⟩ 3
        ⟨LookupResult.notFound, false, false, false⟩ =
      (Except.error "cannot migration VMI until migrationState is ready",
        ⟨LookupResult.notFound, false, false, false⟩, ⟨false, false, false⟩) :=
  c10_requires_migration_state _ 3 _ rfl

/-- Claim C1: when the persisted record carries the request's migration
UID and its end timestamp is unset, the start operation succeeds as a
no-op: the idempotency check reports already-in-progress, MigrateVMI
returns no error, the persisted state is unmodified, no hosts-file entry
is appended and no background migration job is started. -/
theorem c1_idempotent_start (vmi : VMI) (st : MigrationState)
    (spec : DomainSpec) (m : MigrationMetadata) (now : Nat) (w : World)
    (hstate : vmi.status.migrationState = some st)
    (hlookup : w.lookup = LookupResult.found spec)
    (hget : w.getSpecFails = false)
    (hmig : spec.migration = some m)
    (huid : m.uid = st.migrationUID)
    (hend : m.endTimestamp = none) :
    initializeMigrationMetadata vmi now w = (Except.ok true, w) ∧
    MigrateVMI vmi now w = (Except.ok (), w, ⟨true, false, false⟩) := by
  have huid' : m.uid = vmi.migrationUID := by
    rw [VMI.migrationUID, hstate, huid]
  have hinit : initializeMigrationMetadata vmi now w = (Except.ok true, w) := by
    unfold initializeMigrationMetadata
    rw [hlookup, hget]
    simp [hmig, huid', hend]
  refine ⟨hinit, ?_⟩
  unfold MigrateVMI
  rw [hstate, hinit]

/-- Witness for claim C1 at a concrete VMI, record and world. -/
theorem c1_idempotent_start_witness :
    initializeMigrationMetadata
        ⟨⟨[], ⟨none, none⟩⟩, ⟨some ⟨"mig-1", some 5, false, false, "pod-t"⟩, ""⟩⟩ 7
        ⟨LookupResult.found ⟨some ⟨"mig-1", some 5, none, false, false, "", ""⟩⟩,
          false, false, false⟩ =
      (Except.ok true,
        ⟨LookupResult.found ⟨some ⟨"mig-1", some 5, none, false, false, "", ""⟩⟩,
          false, false, false⟩) ∧
    MigrateVMI
        ⟨⟨[], ⟨none, none⟩⟩, ⟨some ⟨"mig-1", some 5, false, false, "pod-t"⟩, ""⟩⟩ 7
        ⟨LookupResult.found ⟨some ⟨"mig-1", some 5, none, false, false, "", ""⟩⟩,
          false, false, false⟩ =
      (Except.ok (),
        ⟨LookupResult.found ⟨some ⟨"mig-1", some 5, none, false, false, "", ""⟩⟩,
          false, false, false⟩, ⟨true, false, false⟩) :=
  c1_idempotent_start _ ⟨"mig-1", some 5, false, false, "pod-t"⟩
    ⟨some ⟨"mig-1", some 5, none, false, false, "", ""⟩⟩
    ⟨"mig-1", some 5, none, false, false, "", ""⟩ 7 _
    rfl rfl rfl rfl rfl rfl

/-- Claim C2: when the persisted record carries the request's migration
UID and is finished (end timestamp set), the start operation always fails
with the duplicate-attempt error "migration job already executed" and
writes nothing: the world is returned unchanged, and MigrateVMI surfaces
the same error with no hosts-file write and no background job. -/
theorem c2_one_shot (vmi : VMI) (st : MigrationState) (spec : DomainSpec)
    (m : MigrationMetadata) (tEnd : Nat) (now : Nat) (w : World)
    (hstate : vmi.status.migrationState = some st)
    (hlookup : w.lookup = LookupResult.found spec)
    (hget : w.getSpecFails = false)
    (hmig : spec.migration = some m)
    (huid : m.uid = st.migrationUID)
    (hend : m.endTimestamp = some tEnd) :
    initializeMigrationMetadata vmi now w =
      (Except.error "migration job already executed", w) ∧
    MigrateVMI vmi now w =
      (Except.error "migration job already executed", w, ⟨true, false, false⟩) := by
  have huid' : m.uid = vmi.migrationUID := by
    rw [VMI.migrationUID, hstate, huid]
  have hinit : initializeMigrationMetadata vmi now w =
      (Except.error "migration job already executed", w) := by
    unfold initializeMigrationMetadata
    rw [hlookup, hget]
    simp [hmig, huid', hend]
  refine ⟨hinit, ?_⟩
  unfold MigrateVMI
  rw [hstate, hinit]

/-- Witness for claim C2 at a concrete VMI, finished record and world. -/
theorem c2_one_shot_witness :
    initializeMigrationMetadata
        ⟨⟨[], ⟨none, none⟩⟩, ⟨some ⟨"mig-2", some 5, true, false, "pod-t"⟩, ""⟩⟩ 9
        ⟨LookupResult.found ⟨some ⟨"mig-2", some 5, some 6, true, false, "", ""⟩⟩,
          false, false, false⟩ =
      (Except.error "migration job already executed",
        ⟨LookupResult.found ⟨some ⟨"mig-2", some 5, some 6, true, false, "", ""⟩⟩,
          false, false, false⟩) ∧
    MigrateVMI
        ⟨⟨[], ⟨none, none⟩⟩, ⟨some ⟨"mig-2", some 5, true, false, "pod-t"⟩, ""⟩⟩ 9
        ⟨LookupResult.found ⟨some ⟨"mig-2", some 5, some 6, true, false, "", ""⟩⟩,
          false, false, false⟩ =
      (Except.error "migration job already executed",
        ⟨LookupResult.found ⟨some ⟨"mig-2", some 5, some 6, true, false, "", ""⟩⟩,
          false, false, false⟩, ⟨true, false, false⟩) :=
  c2_one_shot _ ⟨"mig-2", some 5, true, false, "pod-t"⟩
    ⟨some ⟨"mig-2", some 5, some 6, true, false, "", ""⟩⟩
    ⟨"mig-2", some 5, some 6, true, false, "", ""⟩ 6 9 _
    rfl rfl rfl rfl rfl rfl

/-- Claim C7: the result recorder succeeds without mutating anything when
the domain metadata holds no migration record, and a domain-not-found
lookup outcome is likewise treated as success rather than a failure. -/
theorem c7_record_result_noop (vmi : VMI) (failed completed : Bool)
    (reason abortStatus : String) (now : Nat) (w w2 : World)
    (spec : DomainSpec)
    (hnf : w.lookup = LookupResult.notFound)
    (hfound : w2.lookup = LookupResult.found spec)
    (hget : w2.getSpecFails = false)
    (hnomig : spec.migration = none) :
    setMigrationResultHelper vmi failed completed reason abortStatus now w =
      (Except.ok (), w) ∧
    setMigrationResultHelper vmi failed completed reason abortStatus now w2 =
      (Except.ok (), w2) := by
  constructor
  · unfold setMigrationResultHelper
    rw [hnf]
  · unfold setMigrationResultHelper
    rw [hfound, hget]
    simp [hnomig]

/-- Witness for claim C7 at a not-found world and an empty-metadata
world. -/
theorem c7_record_result_noop_witness :
    setMigrationResultHelper ⟨⟨[], ⟨none, none⟩⟩, ⟨none, ""⟩⟩ true true
        "some reason" "" 4 ⟨LookupResult.notFound, false, false, false⟩ =
      (Except.ok (), ⟨LookupResult.notFound, false, false, false⟩) ∧
    setMigrationResultHelper ⟨⟨[], ⟨none, none⟩⟩, ⟨none, ""⟩⟩ true true
        "some reason" "" 4 ⟨LookupResult.found ⟨none⟩, false, false, false⟩ =
      (Except.ok (), ⟨LookupResult.found ⟨none⟩, false, false, false⟩) :=
  c7_record_result_noop _ true true "some reason" "" 4 _ _ ⟨none⟩
    rfl rfl rfl rfl

/-- Claim C8: when the stored abort status is already InProgress and the
caller requests InProgress again, the metadata update fails with the
abort-already-in-progress sentinel and leaves the stored state unchanged;
CancelVMIMigration treats exactly this sentinel as success, returning no
error and spawning no second abort task. -/
theorem c8_abort_race (vmi : VMI) (st : MigrationState) (spec : DomainSpec)
    (m : MigrationMetadata) (now : Nat) (w : World)
    (hstate : vmi.status.migrationState = some st)
    (hnc : st.completed = false)
    (hnf : st.failed = false)
    (hts : st.startTimestamp ≠ none)
    (hlookup : w.lookup = LookupResult.found spec)
    (hget : w.getSpecFails = false)
    (hmig : spec.migration = some m)
    (habort : m.abortStatus = MigrationAbortInProgress) :
    setMigrationResultHelper vmi false false "" MigrationAbortInProgress now w =
      (Except.error migrationAbortInProgressError, w) ∧
    CancelVMIMigration vmi now w = (Except.ok (), w, false) := by
  have hguard : MigrationAbortInProgress ≠ "" ∧
      m.abortStatus = MigrationAbortInProgress ∧
      m.abortStatus = MigrationAbortInProgress := by
    refine ⟨?_, habort, habort⟩
    decide
  have hhelper : setMigrationResultHelper vmi false false ""
      MigrationAbortInProgress now w =
      (Except.error migrationAbortInProgressError, w) := by
    unfold setMigrationResultHelper
    rw [hlookup, hget]
    simp only [Bool.false_eq_true, if_false, hmig]
    rw [if_pos hguard]
  refine ⟨hhelper, ?_⟩
  have habortstatus : setMigrationAbortStatus vmi MigrationAbortInProgress now w =
      (Except.error migrationAbortInProgressError, w) := by
    unfold setMigrationAbortStatus
    rw [hhelper]
    simp
  simp [CancelVMIMigration, hstate, habortstatus, hnc, hnf, hts]

/-- Witness for claim C8 at a concrete in-flight VMI whose stored record
already carries an InProgress abort status. -/
theorem c8_abort_race_witness :
    setMigrationResultHelper
        ⟨⟨[], ⟨none, none⟩⟩, ⟨some ⟨"mig-3", some 5, false, false, "pod-t"⟩, ""⟩⟩
        false false "" MigrationAbortInProgress 8
        ⟨LookupResult.found
          ⟨some ⟨"mig-3", some 5, none, false, false, "", MigrationAbortInProgress⟩⟩,
          false, false, false⟩ =
      (Except.error migrationAbortInProgressError,
        ⟨LookupResult.found
          ⟨some ⟨"mig-3", some 5, none, false, false, "", MigrationAbortInProgress⟩⟩,
          false, false, false⟩) ∧
    CancelVMIMigration
        ⟨⟨[], ⟨none, none⟩⟩, ⟨some ⟨"mig-3", some 5, false, false, "pod-t"⟩, ""⟩⟩ 8
        ⟨LookupResult.found
          ⟨some ⟨"mig-3", some 5, none, false, false, "", MigrationAbortInProgress⟩⟩,
          false, false, false⟩ =
      (Except.ok (),
        ⟨LookupResult.found
          ⟨some ⟨"mig-3", some 5, none, false, false, "", MigrationAbortInProgress⟩⟩,
          false, false, false⟩, false) :=
  c8_abort_race _ ⟨"mig-3", some 5, false, false, "pod-t"⟩
    ⟨some ⟨"mig-3", some 5, none, false, false, "", MigrationAbortInProgress⟩⟩
    ⟨"mig-3", some 5, none, false, false, "", MigrationAbortInProgress⟩ 8 _
    rfl rfl rfl (by decide) rfl rfl rfl rfl

/-- Claim C5 counterexample: on the running-state trace with remaining
data 5, 0, 3 the monitor's watermark ends at 3 while the minimum
remaining-data value observed so far is 0 — the code treats a zero
watermark as unset, so after observing 0 the next observation replaces
it and the watermark is not the minimum observed so far. -/
theorem c5_counterexample :
    (runMonitorObs (initialMonitorState 0)
        [((1 : Int), (5 : Int)), (2, 0), (3, 3)]).progressWatermark = 3 ∧
    minRemaining [((1 : Int), (5 : Int)), (2, 0), (3, 3)] = 0 ∧
    ¬ ((runMonitorObs (initialMonitorState 0)
          [((1 : Int), (5 : Int)), (2, 0), (3, 3)]).progressWatermark =
        minRemaining [((1 : Int), (5 : Int)), (2, 0), (3, 3)]) := by
  decide

/-- Claim C5 as amended: while the job is in the running state the monitor
keeps a watermark that equals the minimum remainingData observed so far
together with the instant of the last strict improvement — provided every
observation is positive, since a zero watermark is treated as unset and is
replaced by the next observation; and whenever progressTimeout is nonzero
and the time since the last improvement exceeds it, or
acceptableCompletionTime is nonzero and the elapsed time exceeds it, the
iteration issues an abort, finalizes as failed with the corresponding
descriptive reason and abortStatus Succeeded, and leaves the loop instead
of continuing to poll. -/
theorem c5_monitor_amended :
    (∀ (s : Int) (p : Int × Int) (obs : List (Int × Int)),
        0 < p.2 → (∀ q ∈ obs, 0 < q.2) →
        runMonitorObs (initialMonitorState s) (p :: obs) =
          ⟨s, lastImprovedTime p.2 p.1 obs, minRemaining (p :: obs)⟩) ∧
    (∀ (progressTimeout acceptableCompletionTime : Int) (st : MonitorState)
        (r now : Int),
        (progressTimeout ≠ 0 ∧
            now - monitorLastProgressUpdate st r now > progressTimeout) ∨
          (acceptableCompletionTime ≠ 0 ∧
            now - st.start > acceptableCompletionTime) →
        liveMigrationMonitorStep progressTimeout acceptableCompletionTime st
            none (Except.ok ⟨JobType.unbounded, r⟩) now =
          MonitorAction.halt
            (some ⟨true,
              if progressTimeout ≠ 0 ∧
                  now - monitorLastProgressUpdate st r now > progressTimeout then
                stuckReason (now - monitorLastProgressUpdate st r now)
              else notCompletedReason acceptableCompletionTime,
              MigrationAbortSucceeded⟩) true) := by
  constructor
  · intro s p obs hp hobs
    have h0 : runMonitorObs (initialMonitorState s) (p :: obs) =
        runMonitorObs ⟨s, p.1, p.2⟩ obs := by
      simp [runMonitorObs, initialMonitorState, monitorObserve_zero]
    rw [h0, runMonitorObs_pos obs s p.1 p.2 hp hobs]
    rfl
  · intro pt act st r now h
    unfold monitorLastProgressUpdate at h ⊢
    simp only [liveMigrationMonitorStep]
    by_cases hs : pt ≠ 0 ∧
        now - (if st.progressWatermark = 0 ∨ st.progressWatermark > r then now
          else st.lastProgressUpdate) > pt
    · rw [if_pos hs, if_pos hs]
    · rcases h with h | hb
      · exact absurd h hs
      · rw [if_neg hs, if_pos hb, if_neg hs]

/-- Witness for claim C5 as amended: a positive two-observation trace, and
a stuck iteration (watermark 7 unimproved since instant 0, polled at
instant 10 with progressTimeout 5) that aborts and finalizes. -/
theorem c5_monitor_amended_witness :
    runMonitorObs (initialMonitorState 0) [((1 : Int), (5 : Int)), (2, 3)] =
      ⟨0, lastImprovedTime 5 1 [((2 : Int), (3 : Int))],
        minRemaining [((1 : Int), (5 : Int)), (2, 3)]⟩ ∧
    liveMigrationMonitorStep 5 0 ⟨0, 0, 7⟩ none
        (Except.ok ⟨JobType.unbounded, 7⟩) 10 =
      MonitorAction.halt
        (some ⟨true,
          if (5 : Int) ≠ 0 ∧ 10 - monitorLastProgressUpdate ⟨0, 0, 7⟩ 7 10 > 5 then
            stuckReason (10 - monitorLastProgressUpdate ⟨0, 0, 7⟩ 7 10)
          else notCompletedReason 0,
          MigrationAbortSucceeded⟩) true :=
  ⟨c5_monitor_amended.1 0 (1, 5) [(2, 3)] (by decide) (by decide),
   c5_monitor_amended.2 5 0 ⟨0, 0, 7⟩ 7 10 (Or.inl ⟨by decide, by decide⟩)⟩

/-- Claim C6: evaluation of the three terminal job states. A Completed
poll finalizes with failed false and exits; a Cancelled poll finalizes as
failed with reason "Live migration aborted " and abortStatus Succeeded and
exits; but a Failed poll finalizes with reason "<nil>" — the code formats
the job-info polling error, which on this path is necessarily nil — not
with the last observed migration error as the claim and the specification
state. -/
theorem c6_terminal_branches :
    ∀ (progressTimeout acceptableCompletionTime : Int) (st : MonitorState)
      (r now : Int),
      liveMigrationMonitorStep progressTimeout acceptableCompletionTime st
          none (Except.ok ⟨JobType.completed, r⟩) now =
        MonitorAction.halt (some ⟨false, "", ""⟩) false ∧
      liveMigrationMonitorStep progressTimeout acceptableCompletionTime st
          none (Except.ok ⟨JobType.failed, r⟩) now =
        MonitorAction.halt (some ⟨true, "<nil>", ""⟩) false ∧
      liveMigrationMonitorStep progressTimeout acceptableCompletionTime st
          none (Except.ok ⟨JobType.cancelled, r⟩) now =
        MonitorAction.halt
          (some ⟨true, "Live migration aborted ", MigrationAbortSucceeded⟩)
          false :=
  fun _ _ _ _ _ => ⟨rfl, rfl, rfl⟩

/-- VMI of the completion-budget example: requested memory 2 GiB
(2147483648 bytes), no guest-memory override, not a block migration. -/
def c9ExampleVMI : VMI :=
  ⟨⟨[], ⟨some 2147483648, none⟩⟩, ⟨none, "LiveMigration"⟩⟩

/-- Claim C9 counterexample: for a workload of 2 GiB requested memory and
completionTimeoutPerGiB 10, the monitor's completion budget is 30, not
10 × 2 = 20 — the code scales to decimal gigabytes (10^9 bytes) rounding
up, not to GiB. -/
theorem c9_counterexample :
    liveMigrationMonitorAcceptableCompletionTime ⟨0, 10⟩ c9ExampleVMI 0 = 30 ∧
    ¬ (liveMigrationMonitorAcceptableCompletionTime ⟨0, 10⟩ c9ExampleVMI 0 =
        10 * 2) := by
  decide

/-- Claim C9 as amended: the completion budget equals
completionTimeoutPerGiB multiplied by the migration data size scaled to
decimal gigabytes rounded up — the data size being requested memory,
overridden by explicitly set guest memory, plus the ephemeral-disk total
when the method is block migration — so a 2 GiB workload with
completionTimeoutPerGiB 10 gets a budget of 30. -/
theorem c9_budget_amended :
    (∀ (options : MigrationOptions) (vmi : VMI) (eph : Nat),
        liveMigrationMonitorAcceptableCompletionTime options vmi eph =
          options.completionTimeoutPerGiB *
            Int.ofNat ((migrationDataSizeBytes vmi eph + 999999999) /
              1000000000)) ∧
    liveMigrationMonitorAcceptableCompletionTime ⟨0, 10⟩ c9ExampleVMI 0 = 30 := by
  constructor
  · intro options vmi eph
    unfold liveMigrationMonitorAcceptableCompletionTime getVMIMigrationDataSize
      migrationDataSizeBytes scaledValueGiga
    cases hg : vmi.spec.domain.guestMemory <;>
      by_cases hm : vmi.status.migrationMethod = BlockMigration <;>
      simp [hg, hm]
  · decide

end Virtwrap
